import Mathlib

/-!
Verification of the form-submission and validation controller of the
reizouko-manager repository (the `FoodForm` component together with the
`validation` and `errors` library modules).

The embedding is shallow:

* Strings are Lean `String` / `List Char`; JavaScript's `String.prototype.trim`
  is modelled by stripping the ASCII whitespace characters from both ends
  (identical to the source behaviour on the ASCII range), and `.length` counts
  characters (identical to the source's UTF-16 count on the Basic Multilingual
  Plane, which covers every string the program manipulates).
* A JavaScript `Date` is modelled as its local-clock timestamp in milliseconds
  (an `Int`); `setHours(0,0,0,0)` becomes subtraction of `t % 86400000`.
* The persistence collaborator (`addFoodItem`) is an external dependency of the
  controller; a single call's outcome is threaded in as an
  `Except JsError Unit` value.  The four exception classes of `lib/errors.ts`
  plus "anything else thrown" form the `JsError` type; the classes do not
  extend one another, so the constructors are disjoint exactly like
  `instanceof` checks in the source.
* The controller's React state (`name`, `expiryDate`, `errors`,
  `isSubmitting`) is an explicit `FormState` record; `handleSubmit` becomes a
  state-transition function that also reports the outward calls it makes
  (persistence invocation, `onFoodAdded`, `onClose`) and its focus intent.
  The `yyyy-MM-dd` rendering performed by `formatDateToISOString` (a direct
  call into the external date-fns library) is outside every claim, so the
  persistence event records the date value handed to that formatter.
-/

/-! ## Validation module (`src/lib/validation.ts`) -/

/-- Maximum length of a food name (`MAX_NAME_LENGTH = 50`). -/
def MAX_NAME_LENGTH : Nat := 50

/-- ASCII whitespace, the fragment of the JavaScript `trim` character class the
program can encounter. -/
def isJsWhitespace (c : Char) : Bool :=
  c = ' ' || c = '\t' || c = '\n' || c = '\r' || c = '\x0b' || c = '\x0c'

/-- Remove leading and trailing whitespace from a character list, as
`String.prototype.trim` does. -/
def trimChars (cs : List Char) : List Char :=
  ((cs.dropWhile isJsWhitespace).reverse.dropWhile isJsWhitespace).reverse

/-- The effect of `name.trim()` on strings. -/
def trimJs (s : String) : String :=
  String.mk (trimChars s.toList)

/-- Message for an empty or whitespace-only name. -/
def msgNameRequired : String := "食品名を入力してください。空白文字のみは無効です。"

/-- Message for a name longer than `MAX_NAME_LENGTH` characters. -/
def msgNameTooLong : String :=
  "食品名は" ++ toString MAX_NAME_LENGTH ++ "文字以内で入力してください。"

/-- Function `validateFoodName` from `validation.ts`: trims the raw name, rejects an
empty trimmed result, rejects a trimmed result longer than
`MAX_NAME_LENGTH`, accepts everything else.  `none` means valid. -/
def validateFoodName (name : String) : Option String :=
  let trimmedName := trimChars name.toList
  if trimmedName.isEmpty then
    some msgNameRequired
  else if trimmedName.length > MAX_NAME_LENGTH then
    some msgNameTooLong
  else
    none

/-- Milliseconds per day, the unit removed by `setHours(0,0,0,0)`. -/
def msPerDay : Int := 86400000

/-- Local midnight of the day containing the local-clock timestamp `t`:
the effect of `setHours(0,0,0,0)`. -/
def startOfDayMs (t : Int) : Int :=
  t - t % msPerDay

/-- Message for an absent expiry date (`validateExpiryDate`'s own branch). -/
def msgDateRequired : String := "賞味期限を選択してください。"

/-- Message for an expiry date before today. -/
def msgDatePast : String := "賞味期限は今日以降の日付を選択してください。"

/-- Function `validateExpiryDate` from `validation.ts`: absent dates are rejected;
otherwise `today` is normalised to local midnight and any candidate strictly
before it is rejected.  The candidate is compared un-normalised, exactly as in
the source (`if (date < today)`); `now` is the current local-clock
timestamp. -/
def validateExpiryDate (date : Option Int) (now : Int) : Option String :=
  match date with
  | none => some msgDateRequired
  | some d =>
    let today := startOfDayMs now
    if d < today then some msgDatePast else none

/-! ## Sanitizer (`sanitizeHtmlTags` in `src/lib/validation.ts`)

The source performs two global regex replacements:

1. `/<script\b[^<]*(?:(?!<\/script>)<[^<]*)*<\/script>/gi` — a match starts at
   a case-insensitive `<script` followed by a word boundary and extends through
   the first case-insensitive `</script>`; if no closing tag follows, there is
   no match at that position and scanning resumes one character later.
2. `/<\/?[^>]+(>|$)/g` — a match starts at `<`, requires at least one further
   character other than `>`, and extends through the first `>` (or to the end
   of the string when no `>` follows).  In particular `<>` and a final lone
   `<` are not matched.

Both scanners are written with an explicit fuel argument (one unit per scan
position, so the input length suffices) to keep them structurally recursive
and hence reducible by `decide` on concrete inputs. -/

/-- ASCII word character, the `\w` class used by the `\b` boundary. -/
def isWordCharJs (c : Char) : Bool :=
  c.isAlpha || c.isDigit || c = '_'

/-- Case-insensitive literal match: when the pattern (given in lowercase)
matches a prefix of the input, return the rest of the input. -/
def dropCi : List Char → List Char → Option (List Char)
  | [], cs => some cs
  | _ :: _, [] => none
  | p :: ps, c :: cs => if c.toLower = p then dropCi ps cs else none

/-- The letters of the opening `script` tag, matched after a `<`. -/
def openScriptTail : List Char := ['s', 'c', 'r', 'i', 'p', 't']

/-- The closing `</script>` literal. -/
def closeScriptTag : List Char := ['<', '/', 's', 'c', 'r', 'i', 'p', 't', '>']

/-- The `\b` word boundary after `<script`: satisfied at end of input or when
the next character is not a word character. -/
def wordBoundaryAfter : List Char → Bool
  | [] => true
  | c :: _ => !(isWordCharJs c)

/-- Skip to just past the first case-insensitive occurrence of `</script>`;
`none` when the input has no closing tag. -/
def findCloseScript : List Char → Option (List Char)
  | [] => none
  | c :: cs =>
    match dropCi closeScriptTag (c :: cs) with
    | some rest => some rest
    | none => findCloseScript cs

/-- Skip to just past the first `>`; `none` when the input has no `>`. -/
def afterGt : List Char → Option (List Char)
  | [] => none
  | c :: cs => if c = '>' then some cs else afterGt cs

/-- First replacement pass: delete every `<script…</script>` block together
with its content. -/
def stripScriptsFuel : Nat → List Char → List Char
  | 0, cs => cs
  | _ + 1, [] => []
  | fuel + 1, c :: rest =>
    if c = '<' then
      match dropCi openScriptTail rest with
      | some afterOpen =>
        if wordBoundaryAfter afterOpen then
          match findCloseScript afterOpen with
          | some rem => stripScriptsFuel fuel rem
          | none => c :: stripScriptsFuel fuel rest
        else c :: stripScriptsFuel fuel rest
      | none => c :: stripScriptsFuel fuel rest
    else c :: stripScriptsFuel fuel rest

/-- Second replacement pass: delete every remaining `<…>` tag (also an
unterminated `<…` tail). -/
def removeTagsFuel : Nat → List Char → List Char
  | 0, cs => cs
  | _ + 1, [] => []
  | fuel + 1, c :: rest =>
    if c = '<' then
      match rest with
      | [] => ['<']
      | d :: _ =>
        if d = '>' then '<' :: removeTagsFuel fuel rest
        else
          match afterGt rest with
          | some rem => removeTagsFuel fuel rem
          | none => []
    else c :: removeTagsFuel fuel rest

/-- First pass at adequate fuel. -/
def stripScripts (cs : List Char) : List Char :=
  stripScriptsFuel (cs.length + 1) cs

/-- Second pass at adequate fuel. -/
def removeTags (cs : List Char) : List Char :=
  removeTagsFuel (cs.length + 1) cs

/-- Function `sanitizeHtmlTags` from `validation.ts`: strip script blocks, then strip
the remaining tags. -/
def sanitizeHtmlTags (s : String) : String :=
  let noScriptTags := stripScripts s.toList
  String.mk (removeTags noScriptTags)

example : sanitizeHtmlTags "<div>test</div>" = "test" := by decide
example : sanitizeHtmlTags "<script>alert(\"XSS\")</script>content" = "content" := by decide
example : sanitizeHtmlTags "<script>1</script>a<script>2</script>b" = "ab" := by decide
example : sanitizeHtmlTags "no tags here" = "no tags here" := by decide
example : sanitizeHtmlTags "" = "" := by decide
example : sanitizeHtmlTags "<p>Hello <b>world</b>!</p><script>danger()</script>"
    = "Hello world!" := by decide
example : sanitizeHtmlTags "<div>タグ付き</div><script>alert(\"XSS\")</script>きゅうり"
    = "タグ付ききゅうり" := by decide
example : sanitizeHtmlTags (trimJs "  <div>Tag</div><script>alert(1)</script>Cucumber  ")
    = "TagCucumber" := by decide

/-! ## Error classes (`src/lib/errors.ts`) and the catch-block classification

`QuotaExceededError`, `NetworkError`, `ValidationError` and `StorageError` all
extend `Error` directly and not one another, so the `instanceof` tests of the
catch block in `handleSubmit` discriminate five disjoint cases; `generic`
stands for a plain `Error` or any other thrown value. -/

/-- A value thrown by the persistence collaborator (or by the submit handler
itself), carrying its `message`. -/
inductive JsError where
  | quotaExceeded (message : String)
  | network (message : String)
  | validation (message : String)
  | storage (message : String)
  | generic (message : String)
deriving DecidableEq, Repr

/-- The test `error instanceof QuotaExceededError`. -/
def isQuotaExceededError : JsError → Bool
  | JsError.quotaExceeded _ => true
  | _ => false

/-- The test `error instanceof NetworkError`. -/
def isNetworkError : JsError → Bool
  | JsError.network _ => true
  | _ => false

/-- The test `error instanceof ValidationError`. -/
def isValidationError : JsError → Bool
  | JsError.validation _ => true
  | _ => false

/-- The test `error instanceof StorageError`. -/
def isStorageError : JsError → Bool
  | JsError.storage _ => true
  | _ => false

/-- The `message` property of the thrown value. -/
def errMessage : JsError → String
  | JsError.quotaExceeded m => m
  | JsError.network m => m
  | JsError.validation m => m
  | JsError.storage m => m
  | JsError.generic m => m

/-- Fixed message for a quota-exceeded failure. -/
def msgQuota : String := "保存容量が上限に達しました。不要なデータを削除してください。"

/-- Fixed message for a network failure. -/
def msgNetwork : String :=
  "ネットワーク接続に問題があります。接続を確認し、もう一度お試しください。"

/-- Fixed message for a storage failure. -/
def msgStorage : String :=
  "データの保存中にエラーが発生しました。ブラウザの設定を確認し、もう一度お試しください。"

/-- Fixed fallback message for an unclassified failure. -/
def msgGeneric : String := "食材の追加に失敗しました。もう一度お試しください。"

/-- The catch block's `instanceof` chain in `handleSubmit`: the generic retry
message is the default, overridden in priority order quota-exceeded, network,
validation (which passes the thrown message through), storage. -/
def classifyMessage (e : JsError) : String :=
  if isQuotaExceededError e then msgQuota
  else if isNetworkError e then msgNetwork
  else if isValidationError e then errMessage e
  else if isStorageError e then msgStorage
  else msgGeneric

/-! ## The form controller (`FoodForm` in `src/components/FoodForm.tsx`) -/

/-- The `FormErrors` record of the component; a `none` field is an absent
key. -/
structure FormErrors where
  name : Option String
  expiryDate : Option String
  systemError : Option String
deriving DecidableEq, Repr

/-- The empty `{}` error object. -/
def emptyErrors : FormErrors := ⟨none, none, none⟩

/-- The component state consulted and mutated by `handleSubmit`: the raw name,
the chosen expiry date (`undefined` = `none`), the error record and the
submitting flag (the internally owned flag, or a faithful external owner
mirroring `onSubmittingChange`). -/
structure FormState where
  name : String
  expiryDate : Option Int
  errors : FormErrors
  submitting : Bool
deriving DecidableEq, Repr

/-- An outward call made during `handleSubmit`: the persistence invocation
`addFoodItem({name, expiryDate})` (recording the arguments, the date as the
value handed to `formatDateToISOString`), and the `onFoodAdded` / `onClose`
callbacks. -/
inductive CallEvent where
  | persist (name : String) (expiryDate : Int)
  | foodAdded
  | closeDialog
deriving DecidableEq, Repr

/-- Message used by `handleSubmit` itself when `expiryDate` is `undefined`
at validation time. -/
def msgSelectDate : String := "日付を選択してください。"

/-- Message of the `ValidationError` thrown when the try block is reached with
an absent expiry date. -/
def msgNoExpiry : String := "賞味期限が設定されていません。"

/-- The `dateError` local of `handleSubmit`: `validateExpiryDate` when a date
is present, the fixed selection message otherwise. -/
def computeDateError (now : Int) (expiryDate : Option Int) : Option String :=
  match expiryDate with
  | some d => validateExpiryDate (some d) now
  | none => some msgSelectDate

/-- The `newErrors` object built at the top of `handleSubmit`: the name key is
present exactly when `validateFoodName` errs, the date key exactly when the
date is absent or `dateError` is non-null; no `systemError` key is ever
assigned. -/
def submitValidationErrors (now : Int) (name : String) (expiryDate : Option Int) :
    FormErrors :=
  let nameError := validateFoodName name
  let dateError := computeDateError now expiryDate
  { name := nameError
    expiryDate :=
      if expiryDate.isNone || dateError.isSome then
        some (dateError.getD msgSelectDate)
      else
        none
    systemError := none }

/-- Outcome of the synchronous prefix of `handleSubmit`, up to the suspension
point at the persistence call: either the handler returned (validation errors
recorded, or the in-flight guard hit), or a submission started. -/
inductive BeginResult where
  | halted (st : FormState) (focusName : Bool)
  | started (st : FormState) (sanitizedName : String) (expiryDate : Option Int)
deriving DecidableEq, Repr

/-- The prefix of `handleSubmit`: validate both fields, on any error record
exactly the computed errors (focusing the name field first when it erred) and
stop; otherwise clear the errors, stop silently when already submitting, else
raise the submitting flag and prepare the sanitized name
(`sanitizeHtmlTags(name.trim())`) for the persistence call. -/
def submitBegin (now : Int) (st : FormState) : BeginResult :=
  let newErrors := submitValidationErrors now st.name st.expiryDate
  if newErrors.name.isSome || newErrors.expiryDate.isSome then
    BeginResult.halted { st with errors := newErrors } newErrors.name.isSome
  else
    let cleared := { st with errors := emptyErrors }
    if cleared.submitting then
      BeginResult.halted cleared false
    else
      BeginResult.started { cleared with submitting := true }
        (sanitizeHtmlTags (trimJs st.name)) st.expiryDate

/-- The try/catch/finally of `handleSubmit`, given the collaborator outcome:
an absent date throws `ValidationError(msgNoExpiry)` before the persistence
call; otherwise the collaborator is invoked and on success `onFoodAdded` then
`onClose` fire; any thrown error is classified into `errors.systemError`; the
finally clause always lowers the submitting flag. -/
def submitFinish (collab : Except JsError Unit) (sanitizedName : String)
    (expiryDate : Option Int) (st : FormState) : FormState × List CallEvent :=
  match expiryDate with
  | none =>
    ({ st with
        errors := ⟨none, none, some (classifyMessage (JsError.validation msgNoExpiry))⟩
        submitting := false }, [])
  | some d =>
    match collab with
    | Except.ok _ =>
      ({ st with submitting := false },
        [CallEvent.persist sanitizedName d, CallEvent.foodAdded, CallEvent.closeDialog])
    | Except.error e =>
      ({ st with
          errors := ⟨none, none, some (classifyMessage e)⟩
          submitting := false },
        [CallEvent.persist sanitizedName d])

/-- One complete run of `handleSubmit` with no interleaved trigger: the
resulting state, the outward calls in order, and whether focus moved to the
name field.  The handler is a total function: nothing the collaborator throws
propagates out of it. -/
def handleSubmit (now : Int) (collab : Except JsError Unit) (st : FormState) :
    FormState × List CallEvent × Bool :=
  match submitBegin now st with
  | BeginResult.halted stH focusName => (stH, [], focusName)
  | BeginResult.started stS sName d =>
    let r := submitFinish collab sName d stS
    (r.1, r.2, false)

/-- The state in which a trigger leaves the form when its synchronous prefix
runs to a halt (used for triggers arriving while a submission is in
flight). -/
def beginState (now : Int) (st : FormState) : FormState :=
  match submitBegin now st with
  | BeginResult.halted stH _ => stH
  | BeginResult.started stS _ _ => stS

/-- Run `n` further submit triggers run back to back, each completing its
synchronous prefix. -/
def iterateBegin (now : Int) : Nat → FormState → FormState
  | 0, st => st
  | n + 1, st => iterateBegin now n (beginState now st)

/-- The burst scenario of the specification: one submit trigger starts a
submission, `n` further triggers arrive while it is in flight (before its
finally clause runs), then the collaborator call settles.  Returns the final
state and every outward call of the whole burst. -/
def triggerBurst (now : Int) (collab : Except JsError Unit) (n : Nat)
    (st : FormState) : FormState × List CallEvent :=
  match submitBegin now st with
  | BeginResult.halted stH _ => (stH, [])
  | BeginResult.started stS sName d =>
    submitFinish collab sName d (iterateBegin now n stS)

/-- Whether an outward call is a persistence invocation. -/
def isPersistCall : CallEvent → Bool
  | CallEvent.persist _ _ => true
  | _ => false

/-- Number of persistence invocations in a call trace. -/
def countPersist (evs : List CallEvent) : Nat :=
  (evs.filter isPersistCall).length

example : validateFoodName "" = some msgNameRequired := by decide
example : validateFoodName "  きゅうり  " = none := by decide
example : validateFoodName (String.mk (List.replicate 51 'あ')) = some msgNameTooLong := by
  decide
example : validateExpiryDate none 5 = some msgDateRequired := by decide
example : validateExpiryDate (some 86400000) (86400000 + 3600000) = none := by decide
example : validateExpiryDate (some 86399999) (86400000 + 3600000) = some msgDatePast := by
  decide

/-! ## Sanitizer lemmas

After the second pass every remaining `<` is immediately followed by `>` or
ends the string (`tagFree`); on such strings both passes are the identity,
which yields idempotence of the sanitizer. -/

/-- Every `<` in the list is immediately followed by `>` or is the final
character; such a list is a fixed point of both sanitizer passes. -/
def tagFree : List Char → Bool
  | [] => true
  | c :: cs =>
    if c = '<' then
      match cs with
      | [] => true
      | d :: _ => (d == '>') && tagFree cs
    else tagFree cs

theorem dropCi_length (pat : List Char) :
    ∀ cs rest : List Char, dropCi pat cs = some rest →
      rest.length + pat.length = cs.length := by
  induction pat with
  | nil => intro cs rest h; simp [dropCi] at h; simp [h]
  | cons p ps ih =>
    intro cs rest h
    cases cs with
    | nil => simp [dropCi] at h
    | cons c cs =>
      by_cases hc : c.toLower = p
      · simp [dropCi, hc] at h
        have := ih cs rest h
        simp [List.length]
        omega
      · simp [dropCi, hc] at h

theorem findCloseScript_length :
    ∀ cs rest : List Char, findCloseScript cs = some rest →
      rest.length < cs.length := by
  intro cs
  induction cs with
  | nil => intro rest h; simp [findCloseScript] at h
  | cons c cs ih =>
    intro rest h
    unfold findCloseScript at h
    cases hd : dropCi closeScriptTag (c :: cs) with
    | some r =>
      rw [hd] at h
      have hlen := dropCi_length closeScriptTag (c :: cs) r hd
      simp only [Option.some.injEq] at h
      subst h
      simp [closeScriptTag] at hlen
      simp [List.length]
      omega
    | none =>
      rw [hd] at h
      have := ih rest h
      simp [List.length]
      omega

theorem afterGt_length :
    ∀ cs rest : List Char, afterGt cs = some rest → rest.length < cs.length := by
  intro cs
  induction cs with
  | nil => intro rest h; simp [afterGt] at h
  | cons c cs ih =>
    intro rest h
    unfold afterGt at h
    by_cases hc : c = '>'
    · rw [if_pos hc] at h
      simp only [Option.some.injEq] at h
      subst h
      simp
    · rw [if_neg hc] at h
      have := ih rest h
      simp [List.length]
      omega

theorem tagFree_cons (c : Char) (cs : List Char) (h : tagFree (c :: cs) = true) :
    tagFree cs = true := by
  by_cases hc : c = '<'
  · cases cs with
    | nil => rfl
    | cons d ds =>
      unfold tagFree at h
      rw [if_pos hc] at h
      simp at h
      exact h.2
  · unfold tagFree at h
    rw [if_neg hc] at h
    exact h

theorem removeTagsFuel_tagFree :
    ∀ fuel cs, cs.length < fuel → tagFree (removeTagsFuel fuel cs) = true := by
  intro fuel
  induction fuel using Nat.strong_induction_on with
  | _ fuel ih =>
    intro cs hlen
    match fuel, cs with
    | 0, cs => omega
    | f + 1, [] => rfl
    | f + 1, c :: rest =>
      by_cases hc : c = '<'
      · subst hc
        match rest with
        | [] => rfl
        | d :: ds =>
          by_cases hd : d = '>'
          · subst hd
            have hf : ds.length + 1 < f := by simp at hlen; omega
            match f, hf with
            | g + 1, _ =>
              have hg : tagFree (removeTagsFuel g ds) = true := by
                apply ih g (by omega) ds (by omega)
              simp [removeTagsFuel, tagFree, hg]
          · simp only [removeTagsFuel, if_pos rfl, if_neg hd]
            cases hgt : afterGt (d :: ds) with
            | some rem =>
              have hr := afterGt_length (d :: ds) rem hgt
              simp only [if_pos rfl]
              apply ih f (by omega) rem
              simp at hlen hr
              omega
            | none => rfl
      · simp only [removeTagsFuel, if_neg hc]
        have hr : tagFree (removeTagsFuel f rest) = true := by
          apply ih f (by omega) rest
          simp at hlen
          omega
        unfold tagFree
        rw [if_neg hc]
        exact hr

theorem removeTagsFuel_id :
    ∀ fuel cs, cs.length < fuel → tagFree cs = true → removeTagsFuel fuel cs = cs := by
  intro fuel
  induction fuel with
  | zero => intro cs h; omega
  | succ f ih =>
    intro cs hlen htf
    match cs with
    | [] => rfl
    | c :: rest =>
      by_cases hc : c = '<'
      · subst hc
        match rest with
        | [] => rfl
        | d :: ds =>
          unfold tagFree at htf
          rw [if_pos rfl] at htf
          simp only [Bool.and_eq_true, beq_iff_eq] at htf
          obtain ⟨hd, hrest⟩ := htf
          subst hd
          have hrec : removeTagsFuel f (('>' : Char) :: ds) = ('>' : Char) :: ds := by
            apply ih (('>' : Char) :: ds) (by simp at hlen ⊢; omega) hrest
          simp [removeTagsFuel, hrec]
      · simp only [removeTagsFuel, if_neg hc]
        unfold tagFree at htf
        rw [if_neg hc] at htf
        rw [ih rest (by simp at hlen; omega) htf]

theorem stripScriptsFuel_id :
    ∀ fuel cs, cs.length < fuel → tagFree cs = true → stripScriptsFuel fuel cs = cs := by
  intro fuel
  induction fuel with
  | zero => intro cs h; omega
  | succ f ih =>
    intro cs hlen htf
    match cs with
    | [] => rfl
    | c :: rest =>
      by_cases hc : c = '<'
      · subst hc
        have hdrop : dropCi openScriptTail rest = none := by
          cases rest with
          | nil => rfl
          | cons d ds =>
            unfold tagFree at htf
            rw [if_pos rfl] at htf
            simp only [Bool.and_eq_true, beq_iff_eq] at htf
            obtain ⟨hd, _⟩ := htf
            subst hd
            simp [dropCi, openScriptTail, Char.toLower]
        have hrec : stripScriptsFuel f rest = rest :=
          ih rest (by simp at hlen; omega) (tagFree_cons _ _ htf)
        simp [stripScriptsFuel, hdrop, hrec]
      · simp only [stripScriptsFuel, if_neg hc]
        rw [ih rest (by simp at hlen; omega) (tagFree_cons _ _ htf)]

theorem removeTags_tagFree (cs : List Char) : tagFree (removeTags cs) = true :=
  removeTagsFuel_tagFree (cs.length + 1) cs (Nat.lt_succ_self _)

theorem removeTags_id (cs : List Char) (h : tagFree cs = true) : removeTags cs = cs :=
  removeTagsFuel_id (cs.length + 1) cs (Nat.lt_succ_self _) h

theorem stripScripts_id (cs : List Char) (h : tagFree cs = true) : stripScripts cs = cs :=
  stripScriptsFuel_id (cs.length + 1) cs (Nat.lt_succ_self _) h

theorem sanitizeHtmlTags_tagFree (s : String) :
    tagFree (sanitizeHtmlTags s).toList = true :=
  removeTags_tagFree (stripScripts s.toList)

/-! ## Controller helper lemmas -/

/-- With a valid name, a present valid date and no submission in flight, the
synchronous prefix of `handleSubmit` clears the errors, raises the submitting
flag and reaches the persistence call with the sanitized trimmed name. -/
theorem submitBegin_valid (now : Int) (st : FormState) (d : Int)
    (hname : validateFoodName st.name = none)
    (hdate : st.expiryDate = some d)
    (hvalid : validateExpiryDate (some d) now = none)
    (hsub : st.submitting = false) :
    submitBegin now st
      = BeginResult.started { st with errors := emptyErrors, submitting := true }
          (sanitizeHtmlTags (trimJs st.name)) (some d) := by
  unfold submitBegin submitValidationErrors computeDateError
  rw [hname, hdate]
  simp [hvalid, emptyErrors, hsub]

/-- A trigger arriving while a submission is in flight (errors already
cleared, flag raised) halts without changing the state at all. -/
theorem submitBegin_inflight (now : Int) (st : FormState) (d : Int)
    (hname : validateFoodName st.name = none)
    (hdate : st.expiryDate = some d)
    (hvalid : validateExpiryDate (some d) now = none)
    (herr : st.errors = emptyErrors)
    (hsub : st.submitting = true) :
    submitBegin now st = BeginResult.halted st false := by
  have hsame : { st with errors := emptyErrors } = st := by
    cases st with
    | mk nm ed errs sub => simp_all
  unfold submitBegin submitValidationErrors computeDateError
  rw [hname, hdate]
  simp only [emptyErrors] at hsame
  simp only [hvalid, emptyErrors, hsub]
  simp
  rw [← hdate, ← hsub]
  exact hsame

/-! ## Claim theorems -/

/-- C6: `validateFoodName` errs with the required-name message on every
whitespace-only string (including the empty string), is valid whenever the
trimmed length lies in `[1, 50]`, and returns the too-long error whenever the
trimmed length exceeds 50 — the length being measured on the trimmed,
not-yet-sanitized string. -/
theorem validateFoodName_satisfies_spec (s : String) :
    ((∀ c ∈ s.toList, isJsWhitespace c = true) →
      validateFoodName s = some msgNameRequired)
    ∧ (1 ≤ (trimChars s.toList).length → (trimChars s.toList).length ≤ MAX_NAME_LENGTH →
        validateFoodName s = none)
    ∧ (MAX_NAME_LENGTH < (trimChars s.toList).length →
        validateFoodName s = some msgNameTooLong) := by
  refine ⟨fun h => ?_, fun h1 h2 => ?_, fun h => ?_⟩
  · have h1 : s.toList.dropWhile isJsWhitespace = [] := by
      rw [List.dropWhile_eq_nil_iff]
      exact h
    have h2 : trimChars s.toList = [] := by
      unfold trimChars
      rw [h1]
      rfl
    have h3 : trimChars s.data = [] := h2
    simp [validateFoodName, h2, h3]
  · have hne : (trimChars s.toList).isEmpty = false := by
      cases htc : trimChars s.toList with
      | nil => rw [htc] at h1; simp at h1
      | cons a l => rfl
    simp only [validateFoodName, hne, Bool.false_eq_true, if_false]
    rw [if_neg (by omega)]
  · have hne : (trimChars s.toList).isEmpty = false := by
      cases htc : trimChars s.toList with
      | nil => rw [htc] at h; simp at h
      | cons a l => rfl
    simp only [validateFoodName, hne, Bool.false_eq_true, if_false]
    rw [if_pos (by omega)]

/-- Witness for C6: a whitespace-only name, a valid name, and a name that is
longer than 50 characters before sanitization yet at most 50 after it (a long
tag around a two-character payload) — the last still fails, confirming that
the length is measured before tag stripping. -/
theorem validateFoodName_satisfies_spec_witness :
    validateFoodName "   " = some msgNameRequired
    ∧ validateFoodName "きゅうり" = none
    ∧ validateFoodName
        (String.mk ('<' :: List.replicate 58 'a' ++ ['>', 'b', 'c']))
        = some msgNameTooLong
    ∧ (trimChars (sanitizeHtmlTags
        (String.mk ('<' :: List.replicate 58 'a' ++ ['>', 'b', 'c']))).toList).length
        ≤ MAX_NAME_LENGTH :=
  ⟨(validateFoodName_satisfies_spec "   ").1 (by decide),
   (validateFoodName_satisfies_spec "きゅうり").2.1 (by decide) (by decide),
   (validateFoodName_satisfies_spec _).2.2 (by decide),
   by decide⟩

/-- C7: `validateExpiryDate` rejects an absent date; a present candidate is
rejected exactly when it lies strictly before today's local midnight and is
accepted from that midnight on; normalising the candidate to its own midnight
as well would change nothing, because the two comparisons agree on every
input. -/
theorem validateExpiryDate_satisfies_spec (now d : Int) :
    validateExpiryDate none now = some msgDateRequired
    ∧ (d < startOfDayMs now → validateExpiryDate (some d) now = some msgDatePast)
    ∧ (startOfDayMs now ≤ d → validateExpiryDate (some d) now = none)
    ∧ (startOfDayMs d < startOfDayMs now ↔ d < startOfDayMs now) := by
  refine ⟨rfl, fun h => ?_, fun h => ?_, ?_⟩
  · simp [validateExpiryDate, h]
  · simp only [validateExpiryDate]
    rw [if_neg (by omega)]
  · unfold startOfDayMs msPerDay
    omega

/-- Witness for C7: one millisecond before local midnight of the current day
is rejected, that midnight itself is accepted. -/
theorem validateExpiryDate_satisfies_spec_witness :
    validateExpiryDate (some 86399999) 90000000 = some msgDatePast
    ∧ validateExpiryDate (some 86400000) 90000000 = none :=
  ⟨(validateExpiryDate_satisfies_spec 90000000 86399999).2.1 (by decide),
   (validateExpiryDate_satisfies_spec 90000000 86400000).2.2.1 (by decide)⟩

/-- C5: the catch-block classification checks the thrown value against the
closed set of collaborator exception types in priority order quota-exceeded,
network, validation, storage; quota-exceeded always yields the fixed quota
message, a validation error passes its own message through unchanged, network
and storage yield their fixed strings, and anything else falls back to the
fixed generic retry message.  `classifyMessage` is a total function, so
classification never throws. -/
theorem classifyMessage_satisfies_spec :
    (∀ m, classifyMessage (JsError.quotaExceeded m) = msgQuota)
    ∧ (∀ m, classifyMessage (JsError.network m) = msgNetwork)
    ∧ (∀ m, classifyMessage (JsError.validation m) = m)
    ∧ (∀ m, classifyMessage (JsError.storage m) = msgStorage)
    ∧ (∀ m, classifyMessage (JsError.generic m) = msgGeneric) :=
  ⟨fun _ => rfl, fun _ => rfl, fun _ => rfl, fun _ => rfl, fun _ => rfl⟩

/-- C9: the sanitizer — script blocks removed with their content, then every
remaining angle-bracket tag removed — is idempotent. -/
theorem sanitizeHtmlTags_idempotent (s : String) :
    sanitizeHtmlTags (sanitizeHtmlTags s) = sanitizeHtmlTags s := by
  have hy := sanitizeHtmlTags_tagFree s
  set y := sanitizeHtmlTags s with hdef
  show sanitizeHtmlTags y = y
  simp only [sanitizeHtmlTags]
  rw [stripScripts_id _ hy, removeTags_id _ hy]
  rfl

/-- C2: when either validator errs on the current values, `handleSubmit`
records exactly the computed field errors — the name entry being exactly
`validateFoodName`'s verdict and no system error — makes no outward call (in
particular the persistence collaborator is never invoked), and focuses the
name field exactly when it erred. -/
theorem handleSubmit_validation_failure (now : Int) (collab : Except JsError Unit)
    (st : FormState)
    (h : (submitValidationErrors now st.name st.expiryDate).name.isSome = true
       ∨ (submitValidationErrors now st.name st.expiryDate).expiryDate.isSome = true) :
    handleSubmit now collab st
      = ({ st with errors := submitValidationErrors now st.name st.expiryDate }, [],
          (submitValidationErrors now st.name st.expiryDate).name.isSome)
    ∧ (submitValidationErrors now st.name st.expiryDate).name = validateFoodName st.name
    ∧ (submitValidationErrors now st.name st.expiryDate).systemError = none := by
  have hcond : ((submitValidationErrors now st.name st.expiryDate).name.isSome
      || (submitValidationErrors now st.name st.expiryDate).expiryDate.isSome) = true := by
    rcases h with h | h <;> simp [h]
  refine ⟨?_, rfl, rfl⟩
  unfold handleSubmit submitBegin
  simp only [hcond, if_true]

/-- Witness for C2: empty name and a valid future date — a single submit
records only the name-field error and invokes nothing. -/
theorem handleSubmit_validation_failure_witness :
    handleSubmit 0 (Except.ok ())
        { name := "", expiryDate := some 86400000, errors := emptyErrors,
          submitting := false }
      = ({ name := "", expiryDate := some 86400000,
           errors := { name := some msgNameRequired, expiryDate := none,
                       systemError := none },
           submitting := false }, [], true) := by
  have h := handleSubmit_validation_failure 0 (Except.ok ())
      { name := "", expiryDate := some 86400000, errors := emptyErrors,
        submitting := false }
      (Or.inl (by decide))
  exact h.1.trans (by decide)

/-- C3: every collaborator failure is handled inside the submit handler (the
embedding of the handler is a total function — nothing propagates), the
system error is set to exactly the classified message with both field errors
absent, the stored name and date values are untouched, and the submitting
flag is lowered on this path just as on the success path. -/
theorem handleSubmit_collaborator_error (now : Int) (st : FormState) (d : Int)
    (e : JsError)
    (hname : validateFoodName st.name = none)
    (hdate : st.expiryDate = some d)
    (hvalid : validateExpiryDate (some d) now = none)
    (hsub : st.submitting = false) :
    handleSubmit now (Except.error e) st
      = ({ st with
            errors := { name := none, expiryDate := none,
                        systemError := some (classifyMessage e) },
            submitting := false },
         [CallEvent.persist (sanitizeHtmlTags (trimJs st.name)) d], false)
    ∧ (handleSubmit now (Except.error e) st).1.name = st.name
    ∧ (handleSubmit now (Except.error e) st).1.expiryDate = st.expiryDate := by
  have hb := submitBegin_valid now st d hname hdate hvalid hsub
  have hmain : handleSubmit now (Except.error e) st
      = ({ st with
            errors := { name := none, expiryDate := none,
                        systemError := some (classifyMessage e) },
            submitting := false },
         [CallEvent.persist (sanitizeHtmlTags (trimJs st.name)) d], false) := by
    unfold handleSubmit
    rw [hb]
    simp [submitFinish]
  refine ⟨hmain, ?_, ?_⟩ <;> rw [hmain]

/-- Witness for C3: a quota-exceeded failure — the fixed quota message is the
single recorded message, the fields survive, the flag is lowered. -/
theorem handleSubmit_collaborator_error_witness :
    handleSubmit 0 (Except.error (JsError.quotaExceeded "boom"))
        { name := "きゅうり", expiryDate := some 86400000, errors := emptyErrors,
          submitting := false }
      = ({ name := "きゅうり", expiryDate := some 86400000,
           errors := { name := none, expiryDate := none,
                       systemError := some msgQuota },
           submitting := false },
         [CallEvent.persist "きゅうり" 86400000], false) := by
  have h := handleSubmit_collaborator_error 0
      { name := "きゅうり", expiryDate := some 86400000, errors := emptyErrors,
        submitting := false }
      86400000 (JsError.quotaExceeded "boom") (by decide) rfl (by decide) rfl
  exact h.1.trans (by decide)

/-- C4: on a successful submission `onFoodAdded` and `onClose` are invoked in
that order, exactly once each, and only after the persistence call; on a
failed submission neither callback is invoked. -/
theorem handleSubmit_success_callbacks (now : Int) (st : FormState) (d : Int)
    (hname : validateFoodName st.name = none)
    (hdate : st.expiryDate = some d)
    (hvalid : validateExpiryDate (some d) now = none)
    (hsub : st.submitting = false) :
    handleSubmit now (Except.ok ()) st
      = ({ st with errors := emptyErrors, submitting := false },
         [CallEvent.persist (sanitizeHtmlTags (trimJs st.name)) d,
          CallEvent.foodAdded, CallEvent.closeDialog], false)
    ∧ ∀ e : JsError,
        (handleSubmit now (Except.error e) st).2.1
          = [CallEvent.persist (sanitizeHtmlTags (trimJs st.name)) d] := by
  have hb := submitBegin_valid now st d hname hdate hvalid hsub
  constructor
  · unfold handleSubmit
    rw [hb]
    simp [submitFinish, emptyErrors]
  · intro e
    unfold handleSubmit
    rw [hb]
    simp [submitFinish]

/-- Witness for C4: a concrete successful submission produces exactly the
trace persistence, `onFoodAdded`, `onClose`. -/
theorem handleSubmit_success_callbacks_witness :
    handleSubmit 0 (Except.ok ())
        { name := "きゅうり", expiryDate := some 86400000, errors := emptyErrors,
          submitting := false }
      = ({ name := "きゅうり", expiryDate := some 86400000, errors := emptyErrors,
           submitting := false },
         [CallEvent.persist "きゅうり" 86400000, CallEvent.foodAdded,
          CallEvent.closeDialog], false) := by
  have h := handleSubmit_success_callbacks 0
      { name := "きゅうり", expiryDate := some 86400000, errors := emptyErrors,
        submitting := false }
      86400000 (by decide) rfl (by decide) rfl
  exact h.1.trans (by decide)

/-- C1: in the burst scenario — a submit trigger with valid fields starts a
submission and `n` further triggers arrive before the first one's guaranteed
cleanup (the finally clause) runs — the first trigger raises the flag and
reaches the persistence call, every later trigger halts at the guard leaving
the form state bit-for-bit unchanged, and the whole burst performs exactly
one persistence invocation whatever the collaborator outcome. -/
theorem concurrent_submits_single_persist (now : Int) (collab : Except JsError Unit)
    (st : FormState) (d : Int) (n : Nat)
    (hname : validateFoodName st.name = none)
    (hdate : st.expiryDate = some d)
    (hvalid : validateExpiryDate (some d) now = none)
    (hsub : st.submitting = false) :
    submitBegin now st
      = BeginResult.started { st with errors := emptyErrors, submitting := true }
          (sanitizeHtmlTags (trimJs st.name)) (some d)
    ∧ submitBegin now { st with errors := emptyErrors, submitting := true }
      = BeginResult.halted { st with errors := emptyErrors, submitting := true } false
    ∧ iterateBegin now n { st with errors := emptyErrors, submitting := true }
      = { st with errors := emptyErrors, submitting := true }
    ∧ countPersist (triggerBurst now collab n st).2 = 1 := by
  have hb := submitBegin_valid now st d hname hdate hvalid hsub
  have hin : submitBegin now { st with errors := emptyErrors, submitting := true }
      = BeginResult.halted { st with errors := emptyErrors, submitting := true }
          false := by
    exact submitBegin_inflight now _ d hname hdate hvalid rfl rfl
  have hbs : beginState now { st with errors := emptyErrors, submitting := true }
      = { st with errors := emptyErrors, submitting := true } := by
    unfold beginState
    rw [hin]
  have hiter : ∀ m, iterateBegin now m { st with errors := emptyErrors, submitting := true }
      = { st with errors := emptyErrors, submitting := true } := by
    intro m
    induction m with
    | zero => rfl
    | succ k ihk =>
      show iterateBegin now k
          (beginState now { st with errors := emptyErrors, submitting := true })
        = { st with errors := emptyErrors, submitting := true }
      rw [hbs]
      exact ihk
  refine ⟨hb, hin, hiter n, ?_⟩
  unfold triggerBurst
  rw [hb]
  show countPersist (submitFinish collab (sanitizeHtmlTags (trimJs st.name)) (some d)
      (iterateBegin now n { st with errors := emptyErrors, submitting := true })).2 = 1
  rw [hiter n]
  cases collab with
  | ok u => simp [submitFinish, countPersist, isPersistCall]
  | error e => simp [submitFinish, countPersist, isPersistCall]

/-- Witness for C1: a burst of one starting trigger and three in-flight
triggers with a valid name and date persists exactly once. -/
theorem concurrent_submits_single_persist_witness :
    countPersist (triggerBurst 0 (Except.ok ()) 3
        { name := "a", expiryDate := some 86400000, errors := emptyErrors,
          submitting := false }).2 = 1 :=
  (concurrent_submits_single_persist 0 (Except.ok ())
      { name := "a", expiryDate := some 86400000, errors := emptyErrors,
        submitting := false }
      86400000 3 (by decide) rfl (by decide) rfl).2.2.2

/-- C8 (amended): on a successful submission the name delivered to the
persistence collaborator is the raw name trimmed first and then sanitized,
`sanitizeHtmlTags(name.trim())`. -/
theorem handleSubmit_delivers_trim_then_sanitize (now : Int) (st : FormState)
    (d : Int)
    (hname : validateFoodName st.name = none)
    (hdate : st.expiryDate = some d)
    (hvalid : validateExpiryDate (some d) now = none)
    (hsub : st.submitting = false) :
    (handleSubmit now (Except.ok ()) st).2.1
      = [CallEvent.persist (sanitizeHtmlTags (trimJs st.name)) d,
         CallEvent.foodAdded, CallEvent.closeDialog] := by
  have hb := submitBegin_valid now st d hname hdate hvalid hsub
  unfold handleSubmit
  rw [hb]
  simp [submitFinish]

/-- Witness for C8 (amended): the specification's example input reaches the
collaborator as exactly `TagCucumber` — tags and the script block are gone,
with no script remnants and no inserted space. -/
theorem handleSubmit_delivers_trim_then_sanitize_witness :
    (handleSubmit 0 (Except.ok ())
        { name := "  <div>Tag</div><script>alert(1)</script>Cucumber  ",
          expiryDate := some 86400000, errors := emptyErrors,
          submitting := false }).2.1
      = [CallEvent.persist "TagCucumber" 86400000, CallEvent.foodAdded,
         CallEvent.closeDialog] := by
  have h := handleSubmit_delivers_trim_then_sanitize 0
      { name := "  <div>Tag</div><script>alert(1)</script>Cucumber  ",
        expiryDate := some 86400000, errors := emptyErrors, submitting := false }
      86400000 (by decide) rfl (by decide) rfl
  exact h.trans (by decide)

/-- Counterexample to C8 as stated: on the claim's example input the
collaborator receives `TagCucumber`, not `Tag Cucumber`; moreover the
delivered name is not in general the sanitize-then-trim of the raw name — for
the raw name `a <b` the code delivers `a ` (trailing space kept, because the
trim runs before the unterminated tag is stripped) while sanitize-then-trim
would deliver `a`. -/
theorem handleSubmit_roundtrip_counterexample :
    (handleSubmit 0 (Except.ok ())
        { name := "  <div>Tag</div><script>alert(1)</script>Cucumber  ",
          expiryDate := some 86400000, errors := emptyErrors,
          submitting := false }).2.1
      = [CallEvent.persist "TagCucumber" 86400000, CallEvent.foodAdded,
         CallEvent.closeDialog]
    ∧ ("TagCucumber" : String) ≠ "Tag Cucumber"
    ∧ (handleSubmit 0 (Except.ok ())
        { name := "a <b", expiryDate := some 86400000, errors := emptyErrors,
          submitting := false }).2.1
      = [CallEvent.persist "a " 86400000, CallEvent.foodAdded,
         CallEvent.closeDialog]
    ∧ ("a " : String) ≠ trimJs (sanitizeHtmlTags "a <b") :=
  ⟨by decide, by decide, by decide, by decide⟩

/-- C10 (amended): when the try block is reached with an absent expiry date,
the handler throws a `ValidationError` whose fixed message is then classified
by the handler's own catch as a Validation-kind failure: the system error
becomes exactly that message — not the generic retry message — no outward
call is made, nothing propagates, and the finally clause lowers the
submitting flag. -/
theorem absent_date_guard_validation_kind (collab : Except JsError Unit)
    (sName : String) (st : FormState) :
    submitFinish collab sName none st
      = ({ st with
            errors := { name := none, expiryDate := none,
                        systemError := some msgNoExpiry },
            submitting := false }, [])
    ∧ classifyMessage (JsError.validation msgNoExpiry) = msgNoExpiry :=
  ⟨rfl, rfl⟩

/-- Counterexample to C10 as stated: reaching the try block with an absent
date yields the Validation-kind message `msgNoExpiry`, which differs from the
generic retry message the claim requires. -/
theorem absent_date_guard_counterexample :
    (submitFinish (Except.ok ()) "x" none
        { name := "x", expiryDate := none, errors := emptyErrors,
          submitting := true }).1.errors.systemError
      = some msgNoExpiry
    ∧ msgNoExpiry ≠ msgGeneric
    ∧ (submitFinish (Except.ok ()) "x" none
        { name := "x", expiryDate := none, errors := emptyErrors,
          submitting := true }).1.errors.systemError
      ≠ some msgGeneric :=
  ⟨by decide, by decide, by decide⟩
